import Mathlib

/-!
Verification of the Notion AI backend (`src/server.js` and the two
concatenated older revisions in `src/unnamed/part_000`).

The development shallowly embeds the two variants of the
`/process-notion-content` pipeline:

* the block-tree extraction (`fetchNotionPageContent` /
  `extractTextFromBlocks`) over paginated `blocks.children.list`
  responses,
* the action-to-prompt switch,
* the generate-then-append control flow, with external collaborators
  (Notion store, Gemini generator, URL fetch) modelled as oracles whose
  outcomes are supplied in an environment record, and the calls actually
  issued recorded as an effect trace.

JavaScript strings are modelled as Lean `String`; helper functions
(`jsTrim`, `jsTake`, ...) are defined structurally over the character
list so that concrete runs reduce inside the kernel.  `substring(0, n)`
counts UTF-16 code units in JavaScript and characters here; the claims
under study only speak about a plain prefix cut, where the two agree.
-/

/-- Concatenation of a list of strings (JavaScript `array.join('')`). -/
def sjoin : List String → String
  | [] => ""
  | s :: r => s ++ sjoin r

/-- JavaScript `String.prototype.trim` (whitespace stripped from both
ends), defined structurally over the character list. -/
def jsTrim (s : String) : String :=
  String.mk (((s.data.dropWhile Char.isWhitespace).reverse.dropWhile Char.isWhitespace).reverse)

/-- JavaScript `String.prototype.startsWith`. -/
def jsStartsWith (s p : String) : Bool :=
  p.data.isPrefixOf s.data

/-- JavaScript `String.prototype.substring(0, n)`: a plain prefix cut. -/
def jsTake (s : String) (n : Nat) : String :=
  String.mk (s.data.take n)

/-- JavaScript `String.prototype.replace(/_/g, ' ')`; the pattern is a
single character, so a character map suffices. -/
def underscoresToSpaces (s : String) : String :=
  String.mk (s.data.map fun c => if c = '_' then ' ' else c)

/-- Whether `needle` occurs at the start of `hay`. -/
def listPrefixOf : List Char → List Char → Bool
  | [], _ => true
  | _ :: _, [] => false
  | a :: as, b :: bs => a == b && listPrefixOf as bs

/-- Whether `needle` occurs contiguously anywhere in `hay`. -/
def listContains (needle : List Char) : List Char → Bool
  | [] => needle.isEmpty
  | b :: bs => listPrefixOf needle (b :: bs) || listContains needle bs

/-- Substring test: does `hay` contain `needle`? -/
def containsStr (hay needle : String) : Bool :=
  listContains needle.data hay.data

/-- An inline text span of a Notion block (`rich_text` array element);
only the `plain_text` field is read by the code under study. -/
structure RichText where
  plain_text : String
  deriving DecidableEq

/-- A Notion content block as read back from `blocks.children.list`.
The four recognised types carry their `rich_text` spans; every other
block type is only ever inspected through its `type` tag, kept here as a
string. -/
inductive Block where
  | paragraph (rich_text : List RichText)
  | heading_1 (rich_text : List RichText)
  | heading_2 (rich_text : List RichText)
  | heading_3 (rich_text : List RichText)
  | other (type : String)
  deriving DecidableEq

/-- A `rich_text` element of a block submitted to
`blocks.children.append`; `bold` records the `annotations.bold` flag
(absent annotations are modelled as `false`). -/
structure OutRichText where
  content : String
  bold : Bool
  deriving DecidableEq

/-- A block submitted to `blocks.children.append`. -/
inductive OutBlock where
  | paragraph (rich_text : List OutRichText)
  | code (rich_text : List OutRichText) (language : String)
  deriving DecidableEq

/-- One external call issued by a pipeline run, in order of issue.
`fetchPage` stands for one invocation of the paginated
`fetchNotionPageContent` helper. -/
inductive Effect where
  | fetchPage (pageId : String)
  | urlFetch (url : String)
  | generate (prompt : String)
  | append (pageId : String) (children : List OutBlock)
  deriving DecidableEq

/-- Whether an effect is an extractor invocation. -/
def Effect.isFetch : Effect → Bool
  | .fetchPage _ => true
  | _ => false

/-- Whether an effect is a document-store append. -/
def Effect.isAppend : Effect → Bool
  | .append _ _ => true
  | _ => false

/-- The request body of `POST /process-notion-content`:
`{ content, action, notionPageId }`, with `content` and `notionPageId`
possibly absent. -/
structure Req where
  content : Option String
  action : String
  notionPageId : Option String

/-- JavaScript falsiness/blankness test used by both variants:
`!c || c.trim() === ''`. -/
def isBlank : Option String → Bool
  | none => true
  | some s => jsTrim s == ""

/-- The pagination loop of `fetchNotionPageContent`: each element of the
argument is the `results` array of one `blocks.children.list` response,
the last response being the one whose `next_cursor` is null.  The
`do/while (cursor)` loop pushes every page's results in retrieval order,
with no bound on the number of pages. -/
def fetchAllBlocks : List (List Block) → List Block
  | [] => []
  | page :: rest => page ++ fetchAllBlocks rest

theorem fetchAllBlocks_eq_flatten (pages : List (List Block)) :
    fetchAllBlocks pages = pages.flatten := by
  induction pages with
  | nil => rfl
  | cons p rest ih => simp [fetchAllBlocks, ih]

namespace Server

/-- One step of the `blocks.forEach` accumulation in `src/server.js`
(lines 61-77): paragraphs append each span whose `plain_text` is truthy
followed by a newline; headings append every span's `plain_text`
followed by a newline.  The `block.<type>.rich_text` truthiness guards
are always true here since `rich_text` is modelled as an always-present
list. -/
def extractStep (acc : String) (b : Block) : String :=
  match b with
  | .paragraph rts =>
      rts.foldl (fun a rt => if rt.plain_text = "" then a else a ++ (rt.plain_text ++ "\n")) acc
  | .heading_1 rts => rts.foldl (fun a rt => a ++ (rt.plain_text ++ "\n")) acc
  | .heading_2 rts => rts.foldl (fun a rt => a ++ (rt.plain_text ++ "\n")) acc
  | .heading_3 rts => rts.foldl (fun a rt => a ++ (rt.plain_text ++ "\n")) acc
  | .other _ => acc

/-- The flattening loop of `src/server.js` `fetchNotionPageContent`:
`let content = ''; blocks.forEach(...)`. -/
def extractContent (blocks : List Block) : String :=
  blocks.foldl extractStep ""

/-- Per-block contribution of the `src/server.js` extractor, stated
block-locally so that the accumulator loop can be compared against the
per-block policy the specification describes. -/
def blockContribution : Block → String
  | .paragraph rts =>
      sjoin (rts.map fun rt => if rt.plain_text = "" then "" else rt.plain_text ++ "\n")
  | .heading_1 rts => sjoin (rts.map fun rt => rt.plain_text ++ "\n")
  | .heading_2 rts => sjoin (rts.map fun rt => rt.plain_text ++ "\n")
  | .heading_3 rts => sjoin (rts.map fun rt => rt.plain_text ++ "\n")
  | .other _ => ""

/-- `src/server.js` `fetchNotionPageContent` (lines 44-83): run the
pagination loop, flatten the accumulated blocks, and on any underlying
failure rethrow a single wrapped error
`Failed to fetch content from Notion page: <cause>`.  The store oracle
is either the full list of paginated responses or the failure's message. -/
def fetchNotionPageContent (pageId : String)
    (store : Except String (List (List Block))) : Except String String :=
  match store with
  | .error m => .error ("Failed to fetch content from Notion page: " ++ m)
  | .ok pages => .ok (extractContent (fetchAllBlocks pages))

end Server

namespace Part000

/-- `extractTextFromBlocks` of `src/unnamed/part_000` (lines 279-295):
only paragraph blocks with a non-empty `rich_text` array contribute, the
joined span texts plus one newline each; the heading cases are commented
out in the source. -/
def extractTextFromBlocks (blocks : List Block) : String :=
  blocks.foldl
    (fun acc b =>
      match b with
      | .paragraph rts =>
          if 0 < rts.length then acc ++ (sjoin (rts.map fun rt => rt.plain_text) ++ "\n") else acc
      | _ => acc) ""

/-- Per-block contribution of the `part_000` extractor, stated
block-locally for comparison with the specified per-block policy. -/
def blockContribution : Block → String
  | .paragraph rts =>
      if 0 < rts.length then sjoin (rts.map fun rt => rt.plain_text) ++ "\n" else ""
  | _ => ""

/-- `fetchNotionPageContent` of `src/unnamed/part_000` (lines 298-321):
same pagination loop and same wrapped error message as the `server.js`
variant, but flattening through `extractTextFromBlocks`. -/
def fetchNotionPageContent (pageId : String)
    (store : Except String (List (List Block))) : Except String String :=
  match store with
  | .error m => .error ("Failed to fetch content from Notion page: " ++ m)
  | .ok pages => .ok (extractTextFromBlocks (fetchAllBlocks pages))

end Part000

theorem sjoin_append (l1 l2 : List String) : sjoin (l1 ++ l2) = sjoin l1 ++ sjoin l2 := by
  induction l1 with
  | nil => simp [sjoin]
  | cons s t ih => simp [sjoin, ih, String.append_assoc]

theorem Server.spanFold_guarded (rts : List RichText) (acc : String) :
    rts.foldl (fun a rt => if rt.plain_text = "" then a else a ++ (rt.plain_text ++ "\n")) acc
      = acc ++ sjoin (rts.map fun rt => if rt.plain_text = "" then "" else rt.plain_text ++ "\n") := by
  induction rts generalizing acc with
  | nil => simp [sjoin]
  | cons rt rest ih =>
      by_cases h : rt.plain_text = "" <;>
        simp [h, ih, sjoin, String.append_assoc]

theorem Server.spanFold_plain (rts : List RichText) (acc : String) :
    rts.foldl (fun a rt => a ++ (rt.plain_text ++ "\n")) acc
      = acc ++ sjoin (rts.map fun rt => rt.plain_text ++ "\n") := by
  induction rts generalizing acc with
  | nil => simp [sjoin]
  | cons rt rest ih => simp [ih, sjoin, String.append_assoc]

theorem Server.extractStep_eq (acc : String) (b : Block) :
    Server.extractStep acc b = acc ++ Server.blockContribution b := by
  cases b with
  | paragraph rts => simpa [Server.extractStep, Server.blockContribution] using
      Server.spanFold_guarded rts acc
  | heading_1 rts => simpa [Server.extractStep, Server.blockContribution] using
      Server.spanFold_plain rts acc
  | heading_2 rts => simpa [Server.extractStep, Server.blockContribution] using
      Server.spanFold_plain rts acc
  | heading_3 rts => simpa [Server.extractStep, Server.blockContribution] using
      Server.spanFold_plain rts acc
  | other t => simp [Server.extractStep, Server.blockContribution]

theorem Server.extractContent_eq_sjoin (blocks : List Block) :
    Server.extractContent blocks = sjoin (blocks.map Server.blockContribution) := by
  suffices h : ∀ acc, blocks.foldl Server.extractStep acc
      = acc ++ sjoin (blocks.map Server.blockContribution) by
    simpa [Server.extractContent] using h ""
  induction blocks with
  | nil => intro acc; simp [sjoin]
  | cons b rest ih =>
      intro acc
      simp [List.foldl, Server.extractStep_eq, ih, sjoin, String.append_assoc]

theorem Part000.extractTextFromBlocks_eq_sjoin (blocks : List Block) :
    Part000.extractTextFromBlocks blocks = sjoin (blocks.map Part000.blockContribution) := by
  suffices h : ∀ acc, blocks.foldl
      (fun acc b =>
        match b with
        | Block.paragraph rts =>
            if 0 < rts.length then acc ++ (sjoin (rts.map fun rt => rt.plain_text) ++ "\n") else acc
        | _ => acc) acc
      = acc ++ sjoin (blocks.map Part000.blockContribution) by
    simpa [Part000.extractTextFromBlocks] using h ""
  induction blocks with
  | nil => intro acc; simp [sjoin]
  | cons b rest ih =>
      intro acc
      cases b with
      | paragraph rts =>
          by_cases h : 0 < rts.length <;>
            simp [h, List.foldl, ih, Part000.blockContribution, sjoin, String.append_assoc]
      | heading_1 rts => simp [List.foldl, ih, Part000.blockContribution, sjoin]
      | heading_2 rts => simp [List.foldl, ih, Part000.blockContribution, sjoin]
      | heading_3 rts => simp [List.foldl, ih, Part000.blockContribution, sjoin]
      | other t => simp [List.foldl, ih, Part000.blockContribution, sjoin]

namespace Server

/-- The HTTP response produced by the `src/server.js` route handler:
status code plus the JSON body fields that occur
(`error`, `message`, `geminiResponse`). -/
structure Resp where
  status : Nat
  error : Option String
  message : Option String
  geminiResponse : Option String
  deriving DecidableEq

/-- Outcomes of the external collaborators for one request, as seen by
the `src/server.js` handler: the paginated Notion read (all pages, or
the failure message), the Gemini call and the Notion append. -/
structure Env where
  store : Except String (List (List Block))
  gen : Except String String
  appendRes : Except String Unit

/-- The `switch (action)` of `src/server.js` (lines 156-174): five
recognised actions, each a fixed template with the content interpolated
verbatim and uncapped; any other action falls to the `default` arm,
modelled as `none`. -/
def buildPrompt (action contentToProcess : String) : Option String :=
  match action with
  | "summarize" => some ("Summarize the following content concisely:\n\n" ++ contentToProcess)
  | "brainstorm" => some ("Brainstorm ideas related to the following content:\n\n" ++ contentToProcess)
  | "action_items" => some ("Extract key action items from the following content:\n\n" ++ contentToProcess)
  | "expand" => some ("Expand on the following content in detail:\n\n" ++ contentToProcess)
  | "rewrite" => some ("Rewrite the following content to be clearer and more engaging:\n\n" ++ contentToProcess)
  | _ => none

/-- The recognised actions of the `src/server.js` switch. -/
def supportedActions : List String :=
  ["summarize", "brainstorm", "action_items", "expand", "rewrite"]

/-- The children list built by `appendContentToNotion` (lines 90-119):
a single paragraph block holding the whole text in one span. -/
def appendChildren (content : String) : List OutBlock :=
  [OutBlock.paragraph [⟨content, false⟩]]

/-- The tail of the `src/server.js` handler once the content to process
has been resolved: build the prompt (rejecting unknown actions with
400), call Gemini, append the response to the page, and translate any
thrown error through the route-level catch
(`Failed to process request: <message>`). `fx` is the effect trace
accumulated so far. -/
def processAction (env : Env) (pageId action contentToProcess : String)
    (fx : List Effect) : Resp × List Effect :=
  match buildPrompt action contentToProcess with
  | none => (⟨400, some "Invalid AI action specified.", none, none⟩, fx)
  | some prompt =>
    match env.gen with
    | .error m =>
        (⟨500, some ("Failed to process request: " ++ m), none, none⟩,
         fx ++ [Effect.generate prompt])
    | .ok geminiResponse =>
      match env.appendRes with
      | .error m =>
          (⟨500, some ("Failed to process request: "
              ++ ("Failed to append content to Notion: " ++ m)), none, none⟩,
           fx ++ [Effect.generate prompt, Effect.append pageId (appendChildren geminiResponse)])
      | .ok _ =>
          (⟨200, none, some "Content processed and appended to Notion.", some geminiResponse⟩,
           fx ++ [Effect.generate prompt, Effect.append pageId (appendChildren geminiResponse)])

/-- The `src/server.js` `POST /process-notion-content` handler
(lines 122-191), on the path where both API clients are initialised
(client initialisation is environment configuration, outside the core
under study): require `notionPageId`, resolve the content (fetching
from Notion when the given `content` is absent or blank, and rejecting
with 400 when the fetched text is blank), then hand over to the
action/generate/append tail. -/
def processRequest (env : Env) (req : Req) : Resp × List Effect :=
  match req.notionPageId with
  | none => (⟨400, some "Notion Page ID is required.", none, none⟩, [])
  | some pageId =>
    if isBlank req.content then
      match fetchNotionPageContent pageId env.store with
      | .error m =>
          (⟨500, some ("Failed to process request: " ++ m), none, none⟩,
           [Effect.fetchPage pageId])
      | .ok fetched =>
        if jsTrim fetched = "" then
          (⟨400, some "No readable content found on the specified Notion page to process.",
              none, none⟩,
           [Effect.fetchPage pageId])
        else
          processAction env pageId req.action fetched [Effect.fetchPage pageId]
    else
      processAction env pageId req.action (req.content.getD "") []

end Server

/-- The characters `encodeURIComponent` leaves unescaped
(RFC 3986 unreserved plus `! ~ * ' ( )`). -/
def isUnreservedURIChar (c : Char) : Bool :=
  c.isAlphanum || c == '-' || c == '_' || c == '.' || c == '!' || c == '~' ||
    c == '*' || c == Char.ofNat 39 || c == '(' || c == ')'

/-- The UTF-8 bytes of one code point. -/
def utf8Bytes (c : Char) : List Nat :=
  let n := c.toNat
  if n < 128 then [n]
  else if n < 2048 then [192 + n / 64, 128 + n % 64]
  else if n < 65536 then [224 + n / 4096, 128 + (n / 64) % 64, 128 + n % 64]
  else [240 + n / 262144, 128 + (n / 4096) % 64, 128 + (n / 64) % 64, 128 + n % 64]

/-- Uppercase hexadecimal digit. -/
def hexDigitChar (n : Nat) : Char :=
  if n < 10 then Char.ofNat (48 + n) else Char.ofNat (55 + n)

/-- One percent-encoded byte, `%XY` with uppercase hex. -/
def percentEncodeByte (b : Nat) : String :=
  String.mk ['%', hexDigitChar (b / 16), hexDigitChar (b % 16)]

/-- JavaScript `encodeURIComponent`. -/
def encodeURIComponent (s : String) : String :=
  sjoin (s.data.map fun c =>
    if isUnreservedURIChar c then String.mk [c]
    else sjoin ((utf8Bytes c).map percentEncodeByte))

namespace Part000

/-- The allorigins proxy URL built in `src/unnamed/part_000` (line 62). -/
def proxyUrl (u : String) : String :=
  "https://api.allorigins.win/raw?url=" ++ encodeURIComponent u

/-- The URL test of `src/unnamed/part_000` (line 56):
`content.startsWith('http://') || content.startsWith('https://')`. -/
def startsWithUrl (s : String) : Bool :=
  jsStartsWith s "http://" || jsStartsWith s "https://"

/-- Outcome of the `switch (action)` of `src/unnamed/part_000`
(lines 84-120).  The `rephrase` arm interpolates the identifier
`contentForLLLLM`, which is defined nowhere, so evaluating that arm
throws a `ReferenceError` instead of producing a prompt. -/
inductive PromptResult where
  | ok (prompt : String)
  | referenceError
  deriving DecidableEq

/-- The newline-plus-indentation separator that the multi-line template
literals of `src/unnamed/part_000` carry between the instruction text
and the interpolated content. -/
def promptSep : String := "\n                ---\n                "

/-- The `switch (action)` of `src/unnamed/part_000` (lines 84-120):
six recognised actions and a fall-through `default` arm that still
builds a generic prompt.  `content` is the raw request field (used by
`ask_question` as the question) and `contentForLLM` the truncated
source text. -/
def buildPrompt (action content contentForLLM : String) : PromptResult :=
  match action with
  | "summarize" => .ok ("Provide a concise, high-level summary of the main points and key takeaways from the following text. Keep it to 3-5 bullet points or a short paragraph. Format using Notion-compatible markdown." ++ promptSep ++ contentForLLM)
  | "notes" => .ok ("Extract the most important facts, key concepts, and structured notes from the following text. Present them clearly using Notion-compatible markdown-formatted bulleted or numbered lists." ++ promptSep ++ contentForLLM)
  | "quiz" => .ok ("Generate one challenging multiple-choice question with 4 options (A, B, C, D) and clearly indicate the correct answer at the end (e.g., \"Correct Answer: B\") based on the following text. Format using Notion-compatible markdown." ++ promptSep ++ contentForLLM)
  | "ask_question" => .ok ("Based on the following text, answer the question: \"" ++ content ++ "\". If the answer is not in the provided content, state that. Format using Notion-compatible markdown." ++ promptSep ++ contentForLLM)
  | "brainstorm" => .ok ("Based on the following text, brainstorm 3-5 creative ideas, applications, or related concepts. Present them as a Notion-compatible markdown bulleted list." ++ promptSep ++ contentForLLM)
  | "rephrase" => .referenceError
  | _ => .ok ("Analyze the following text and provide a general overview. Format using Notion-compatible markdown: " ++ contentForLLM)

/-- The actions the `src/unnamed/part_000` switch has explicit cases
for. -/
def supportedActions : List String :=
  ["summarize", "notes", "quiz", "ask_question", "brainstorm", "rephrase"]

/-- The HTTP response of the `src/unnamed/part_000` handler: status plus
the JSON body fields that occur (`success`, `message`, `error`,
`details`, `output`). -/
structure Resp where
  status : Nat
  success : Option Bool
  message : Option String
  error : Option String
  details : Option String
  output : Option String
  deriving DecidableEq

/-- Outcomes of the external collaborators for one request, as seen by
the `src/unnamed/part_000` handler: the proxied URL fetch (keyed by the
full URL requested), the Gemini call and the Notion append. -/
structure Env where
  urlFetch : String → Except String String
  gen : Except String String
  appendRes : Except String Unit

/-- The message Node.js attaches to the `ReferenceError` thrown when the
`rephrase` arm evaluates the undefined identifier `contentForLLLLM`. -/
def referenceErrorMessage : String := "contentForLLLLM is not defined"

/-- The generic message of the route-level catch of
`src/unnamed/part_000` (line 183). -/
def catchAllMessage : String :=
  "An unexpected error occurred during AI processing or Notion interaction."

/-- The `src/unnamed/part_000` handler after the URL branch has resolved
`sourceContent`: blank-check, truncate to 15000 characters, build the
prompt, call Gemini, and append to the page when a `notionPageId` was
given (two blocks: a bold `**AI Output (<action>):**` paragraph and a
markdown code block holding the generated text).  Thrown errors reach
the route-level catch, which answers 500 with the generic message and
the cause in `details`. -/
def afterResolve (env : Env) (req : Req) (sourceContent : Option String)
    (fx : List Effect) : Resp × List Effect :=
  if isBlank sourceContent then
    (⟨400, none, none, some "No content provided for AI processing.", none, none⟩, fx)
  else
    let contentForLLM := jsTake (sourceContent.getD "") 15000
    match buildPrompt req.action (req.content.getD "") contentForLLM with
    | .referenceError =>
        (⟨500, none, none, some catchAllMessage, some referenceErrorMessage, none⟩, fx)
    | .ok prompt =>
      match env.gen with
      | .error m =>
          (⟨500, none, none, some catchAllMessage, some m, none⟩,
           fx ++ [Effect.generate prompt])
      | .ok generatedContent =>
        match req.notionPageId with
        | some pid =>
          let children :=
            [OutBlock.paragraph
               [⟨"**AI Output (" ++ underscoresToSpaces req.action ++ "):**\n\n", true⟩],
             OutBlock.code [⟨generatedContent, false⟩] "markdown"]
          match env.appendRes with
          | .error m =>
              (⟨500, none, none, some catchAllMessage, some m, none⟩,
               fx ++ [Effect.generate prompt, Effect.append pid children])
          | .ok _ =>
              (⟨200, some true, some "Content processed and added to Notion!", none, none,
                  some generatedContent⟩,
               fx ++ [Effect.generate prompt, Effect.append pid children])
        | none =>
            (⟨200, some true, some "Content processed!", none, none, some generatedContent⟩,
             fx ++ [Effect.generate prompt])

/-- The `src/unnamed/part_000` `POST /process-notion-content` handler
(lines 28-185), on the path where both API keys are configured: when the
given `content` is a URL, replace it by the body fetched through the
allorigins proxy, answering 400 (before any Gemini or Notion call) if
that fetch fails; then continue with blank-check, prompt, generation and
append. -/
def process (env : Env) (req : Req) : Resp × List Effect :=
  match req.content with
  | some c =>
    if startsWithUrl c then
      match env.urlFetch (proxyUrl c) with
      | .error m =>
          (⟨400, none, none, some ("Could not fetch content from URL: " ++ c ++ "."),
              some m, none⟩,
           [Effect.urlFetch (proxyUrl c)])
      | .ok body => afterResolve env req (some body) [Effect.urlFetch (proxyUrl c)]
    else afterResolve env req (some c) []
  | none => afterResolve env req none []

end Part000

theorem Server.buildPrompt_eq_none (a c : String) (h : a ∉ Server.supportedActions) :
    Server.buildPrompt a c = none := by
  unfold Server.buildPrompt
  split <;> simp_all [Server.supportedActions]

theorem Part000.buildPrompt_default (a q c : String) (h : a ∉ Part000.supportedActions) :
    Part000.buildPrompt a q c
      = .ok ("Analyze the following text and provide a general overview. Format using Notion-compatible markdown: " ++ c) := by
  unfold Part000.buildPrompt
  split <;> simp_all [Part000.supportedActions]

theorem Server.processAction_cases (env : Server.Env) (pid a c : String) (fx : List Effect) :
    (Server.buildPrompt a c = none ∧
      Server.processAction env pid a c fx
        = (⟨400, some "Invalid AI action specified.", none, none⟩, fx))
  ∨ ∃ p, Server.buildPrompt a c = some p ∧
      ((∃ m, env.gen = .error m ∧
          Server.processAction env pid a c fx
            = (⟨500, some ("Failed to process request: " ++ m), none, none⟩,
               fx ++ [Effect.generate p]))
       ∨ (∃ g m, env.gen = .ok g ∧ env.appendRes = .error m ∧
          Server.processAction env pid a c fx
            = (⟨500, some ("Failed to process request: "
                  ++ ("Failed to append content to Notion: " ++ m)), none, none⟩,
               fx ++ [Effect.generate p, Effect.append pid (Server.appendChildren g)]))
       ∨ (∃ g, env.gen = .ok g ∧ env.appendRes = .ok () ∧
          Server.processAction env pid a c fx
            = (⟨200, none, some "Content processed and appended to Notion.", some g⟩,
               fx ++ [Effect.generate p, Effect.append pid (Server.appendChildren g)]))) := by
  rcases hb : Server.buildPrompt a c with _ | p
  · exact Or.inl ⟨rfl, by simp [Server.processAction, hb]⟩
  · right
    refine ⟨p, rfl, ?_⟩
    rcases hg : env.gen with m | g
    · exact Or.inl ⟨m, rfl, by simp [Server.processAction, hb, hg]⟩
    · rcases ha : env.appendRes with m | u
      · exact Or.inr (Or.inl ⟨g, m, rfl, rfl, by simp [Server.processAction, hb, hg, ha]⟩)
      · cases u
        exact Or.inr (Or.inr ⟨g, rfl, rfl, by simp [Server.processAction, hb, hg, ha]⟩)

theorem Server.processRequest_cases (env : Server.Env) (req : Req) :
    (req.notionPageId = none ∧
      Server.processRequest env req
        = (⟨400, some "Notion Page ID is required.", none, none⟩, []))
  ∨ ∃ pid, req.notionPageId = some pid ∧
      ((∃ m, isBlank req.content = true ∧ env.store = .error m ∧
          Server.processRequest env req
            = (⟨500, some ("Failed to process request: "
                  ++ ("Failed to fetch content from Notion page: " ++ m)), none, none⟩,
               [Effect.fetchPage pid]))
       ∨ (∃ pages, isBlank req.content = true ∧ env.store = .ok pages ∧
            jsTrim (Server.extractContent (fetchAllBlocks pages)) = "" ∧
          Server.processRequest env req
            = (⟨400, some "No readable content found on the specified Notion page to process.",
                  none, none⟩,
               [Effect.fetchPage pid]))
       ∨ (∃ pages, isBlank req.content = true ∧ env.store = .ok pages ∧
            jsTrim (Server.extractContent (fetchAllBlocks pages)) ≠ "" ∧
          Server.processRequest env req
            = Server.processAction env pid req.action
                (Server.extractContent (fetchAllBlocks pages)) [Effect.fetchPage pid])
       ∨ (isBlank req.content = false ∧
          Server.processRequest env req
            = Server.processAction env pid req.action (req.content.getD "") [])) := by
  rcases hpid : req.notionPageId with _ | pid
  · exact Or.inl ⟨rfl, by simp [Server.processRequest, hpid]⟩
  · right
    refine ⟨pid, rfl, ?_⟩
    by_cases hb : isBlank req.content = true
    · rcases hs : env.store with m | pages
      · exact Or.inl ⟨m, hb, rfl,
          by simp [Server.processRequest, hpid, hb, Server.fetchNotionPageContent, hs]⟩
      · by_cases ht : jsTrim (Server.extractContent (fetchAllBlocks pages)) = ""
        · exact Or.inr (Or.inl ⟨pages, hb, rfl, ht,
            by simp [Server.processRequest, hpid, hb, Server.fetchNotionPageContent, hs, ht]⟩)
        · exact Or.inr (Or.inr (Or.inl ⟨pages, hb, rfl, ht,
            by simp [Server.processRequest, hpid, hb, Server.fetchNotionPageContent, hs, ht]⟩))
    · exact Or.inr (Or.inr (Or.inr ⟨by simpa using hb,
        by simp [Server.processRequest, hpid, hb]⟩))

/-- C1: for every sequence of paginated `listChildren` responses ending
in a null continuation token, both variants' `fetchNotionPageContent`
depend only on the flattened block sequence — splitting the same logical
blocks into one page or many yields the identical text — and the output
is the ordered concatenation of the per-block contributions, with the
loop accumulating all pages' blocks in retrieval order and no cap on the
page count (the page list is universally quantified). -/
theorem c1_pagination_invariance (pid : String) (p1 p2 : List (List Block))
    (h : p1.flatten = p2.flatten) :
    Server.fetchNotionPageContent pid (.ok p1) = Server.fetchNotionPageContent pid (.ok p2)
  ∧ Part000.fetchNotionPageContent pid (.ok p1) = Part000.fetchNotionPageContent pid (.ok p2)
  ∧ Server.fetchNotionPageContent pid (.ok p1)
      = .ok (sjoin ((fetchAllBlocks p1).map Server.blockContribution))
  ∧ fetchAllBlocks p1 = p1.flatten := by
  refine ⟨?_, ?_, ?_, fetchAllBlocks_eq_flatten p1⟩
  · simp [Server.fetchNotionPageContent, fetchAllBlocks_eq_flatten, h]
  · simp [Part000.fetchNotionPageContent, fetchAllBlocks_eq_flatten, h]
  · simp [Server.fetchNotionPageContent, Server.extractContent_eq_sjoin]

/-- Witness for C1: the two-page split `["Hello "], ["world"]` and the
one-page split `["Hello ", "world"]` of the same two paragraph blocks
extract identically. -/
theorem c1_pagination_invariance_witness :
    Server.fetchNotionPageContent "P1"
        (.ok [[Block.paragraph [⟨"Hello "⟩]], [Block.paragraph [⟨"world"⟩]]])
      = Server.fetchNotionPageContent "P1"
        (.ok [[Block.paragraph [⟨"Hello "⟩], Block.paragraph [⟨"world"⟩]]]) :=
  (c1_pagination_invariance "P1"
    [[Block.paragraph [⟨"Hello "⟩]], [Block.paragraph [⟨"world"⟩]]]
    [[Block.paragraph [⟨"Hello "⟩], Block.paragraph [⟨"world"⟩]]] (by decide)).1

/-- C2 counterexample: the claimed per-block policy (span concatenation
terminated by one newline, headings recognised) fails on the code.  In
`src/server.js` a paragraph with spans "a", "b" contributes "a\nb\n"
(one newline per span), not "ab\n"; in `src/unnamed/part_000` a
heading-1 block contributes nothing, not "a\n". -/
theorem c2_per_block_policy_cex :
    Server.extractContent [Block.paragraph [⟨"a"⟩, ⟨"b"⟩]] = "a\nb\n"
  ∧ "a\nb\n" ≠ "ab\n"
  ∧ Part000.extractTextFromBlocks [Block.heading_1 [⟨"a"⟩]] = ""
  ∧ ("" : String) ≠ "a\n" := by
  exact ⟨by decide, by decide, by decide, by decide⟩

/-- C2 amended: the extractor output is the order-preserving
concatenation of per-block contributions, the empty string for a page
with no recognised blocks, and unrecognised types contribute nothing and
cause no error; but the per-block policy is: in `src/server.js` each
recognised block (paragraph, heading-1/2/3) contributes one
newline-terminated segment per inline span (paragraph spans with empty
plain text are skipped entirely), not a single newline per block; in
`src/unnamed/part_000` only paragraph blocks with a non-empty span list
are recognised (headings contribute nothing), each contributing the
span concatenation plus one newline. -/
theorem c2_per_block_policy_amended (blocks : List Block) (rts : List RichText) (t : String) :
    Server.extractContent blocks = sjoin (blocks.map Server.blockContribution)
  ∧ Server.blockContribution (Block.paragraph rts)
      = sjoin (rts.map fun rt => if rt.plain_text = "" then "" else rt.plain_text ++ "\n")
  ∧ Server.blockContribution (Block.heading_1 rts)
      = sjoin (rts.map fun rt => rt.plain_text ++ "\n")
  ∧ Server.blockContribution (Block.heading_2 rts)
      = sjoin (rts.map fun rt => rt.plain_text ++ "\n")
  ∧ Server.blockContribution (Block.heading_3 rts)
      = sjoin (rts.map fun rt => rt.plain_text ++ "\n")
  ∧ Server.blockContribution (Block.other t) = ""
  ∧ Server.extractContent [] = ""
  ∧ Part000.extractTextFromBlocks blocks = sjoin (blocks.map Part000.blockContribution)
  ∧ Part000.blockContribution (Block.paragraph rts)
      = (if 0 < rts.length then sjoin (rts.map fun rt => rt.plain_text) ++ "\n" else "")
  ∧ Part000.blockContribution (Block.heading_1 rts) = ""
  ∧ Part000.blockContribution (Block.other t) = "" :=
  ⟨Server.extractContent_eq_sjoin blocks, rfl, rfl, rfl, rfl, rfl, rfl,
   Part000.extractTextFromBlocks_eq_sjoin blocks, rfl, rfl, rfl⟩

/-- C9 counterexample: the wrapped extractor error does not carry the
page identifier.  For page "P1" and cause "network timeout" both
variants surface `Failed to fetch content from Notion page: network
timeout`, in which "P1" does not occur. -/
theorem c9_wrapped_error_cex :
    Server.fetchNotionPageContent "P1" (.error "network timeout")
      = .error "Failed to fetch content from Notion page: network timeout"
  ∧ containsStr "Failed to fetch content from Notion page: network timeout" "P1" = false
  ∧ Part000.fetchNotionPageContent "P1" (.error "network timeout")
      = .error "Failed to fetch content from Notion page: network timeout" := by
  exact ⟨rfl, by decide, rfl⟩

/-- C9 amended: if the underlying paginated fetch fails, both variants'
extractors surface exactly one wrapped error, carrying the underlying
cause message behind the fixed prefix, and return no result at all (the
outcome is an error, never a partially accumulated text); the page
identifier, however, is not part of the wrapped message. -/
theorem c9_wrapped_error_amended (pid m : String) :
    Server.fetchNotionPageContent pid (.error m)
      = .error ("Failed to fetch content from Notion page: " ++ m)
  ∧ Part000.fetchNotionPageContent pid (.error m)
      = .error ("Failed to fetch content from Notion page: " ++ m) :=
  ⟨rfl, rfl⟩

theorem Server.processAction_trace (env : Server.Env) (pid a c : String) (fx : List Effect) :
    ∃ tl, (Server.processAction env pid a c fx).2 = fx ++ tl
      ∧ ((tl.all fun e => !e.isFetch) = true)
      ∧ ∀ p, Effect.generate p ∈ tl → Server.buildPrompt a c = some p := by
  rcases Server.processAction_cases env pid a c fx with ⟨hb, heq⟩ | ⟨p, hp, hrest⟩
  · exact ⟨[], by rw [heq]; simp, by simp, by intro q hq; simp at hq⟩
  · rcases hrest with ⟨m, hg, heq⟩ | ⟨g, m, hg, ha, heq⟩ | ⟨g, hg, ha, heq⟩
    · refine ⟨[Effect.generate p], by rw [heq], by simp [Effect.isFetch], ?_⟩
      intro q hq
      simp at hq
      subst hq
      exact hp
    · refine ⟨[Effect.generate p, Effect.append pid (Server.appendChildren g)],
        by rw [heq], by simp [Effect.isFetch], ?_⟩
      intro q hq
      simp at hq
      subst hq
      exact hp
    · refine ⟨[Effect.generate p, Effect.append pid (Server.appendChildren g)],
        by rw [heq], by simp [Effect.isFetch], ?_⟩
      intro q hq
      simp at hq
      subst hq
      exact hp

theorem Server.processAction_gen_error (env : Server.Env) (pid a c : String)
    (fx : List Effect) (m : String) (hg : env.gen = .error m) :
    Server.processAction env pid a c fx
        = (⟨400, some "Invalid AI action specified.", none, none⟩, fx)
  ∨ ∃ p, Server.buildPrompt a c = some p ∧
      Server.processAction env pid a c fx
        = (⟨500, some ("Failed to process request: " ++ m), none, none⟩,
           fx ++ [Effect.generate p]) := by
  rcases Server.processAction_cases env pid a c fx with ⟨hb, heq⟩ | ⟨p, hp, hrest⟩
  · exact Or.inl heq
  · rcases hrest with ⟨m', hg', heq⟩ | ⟨g, m', hg', _, _⟩ | ⟨g, hg', _, _⟩
    · rw [hg] at hg'
      injection hg' with hm
      subst hm
      exact Or.inr ⟨p, hp, heq⟩
    · rw [hg] at hg'
      cases hg'
    · rw [hg] at hg'
      cases hg'

/-- C5: if the request's `content` is present and non-blank after
trimming, the `src/server.js` pipeline never invokes the extractor —
regardless of `pageId` — and any prompt it sends to the generator is
built from the given content verbatim; if `content` is absent or blank,
the first external call of the pipeline is the extractor invocation on
the request's page id. -/
theorem c5_content_short_circuit (env : Server.Env) (req : Req) :
    (∀ s, req.content = some s → jsTrim s ≠ "" →
      ((Server.processRequest env req).2.all fun e => !e.isFetch) = true
      ∧ ∀ p, Effect.generate p ∈ (Server.processRequest env req).2 →
          Server.buildPrompt req.action s = some p)
  ∧ ∀ pid, req.notionPageId = some pid → isBlank req.content = true →
      (Server.processRequest env req).2.head? = some (Effect.fetchPage pid) := by
  constructor
  · intro s hs hne
    have hb : isBlank (some s) = false := by simp [isBlank, hne]
    rcases hpid : req.notionPageId with _ | pid
    · constructor
      · simp [Server.processRequest, hpid]
      · intro p hp
        simp [Server.processRequest, hpid] at hp
    · have heq : Server.processRequest env req
          = Server.processAction env pid req.action s [] := by
        simp [Server.processRequest, hpid, hb, hs]
      rw [heq]
      obtain ⟨tl, htl, hfetch, hgen⟩ := Server.processAction_trace env pid req.action s []
      constructor
      · rw [htl]
        simpa using hfetch
      · intro p hp
        rw [htl] at hp
        simp at hp
        exact hgen p hp
  · intro pid hpid hb
    rcases hstore : env.store with m | pages
    · simp [Server.processRequest, hpid, hb, Server.fetchNotionPageContent, hstore]
    · by_cases ht : jsTrim (Server.extractContent (fetchAllBlocks pages)) = ""
      · simp [Server.processRequest, hpid, hb, Server.fetchNotionPageContent, hstore, ht]
      · have heq : Server.processRequest env req
            = Server.processAction env pid req.action
                (Server.extractContent (fetchAllBlocks pages)) [Effect.fetchPage pid] := by
          simp [Server.processRequest, hpid, hb, Server.fetchNotionPageContent, hstore, ht]
        rw [heq]
        obtain ⟨tl, htl, _, _⟩ :=
          Server.processAction_trace env pid req.action
            (Server.extractContent (fetchAllBlocks pages)) [Effect.fetchPage pid]
        rw [htl]
        simp

/-- Witness for C5: with content "x" given, the trace of a full run has
no extractor call; with no content given, the trace starts with the
extractor call on page "P1". -/
theorem c5_content_short_circuit_witness :
    ((Server.processRequest ⟨Except.ok [], Except.ok "g", Except.ok ()⟩
        ⟨some "x", "summarize", some "P1"⟩).2.all fun e => !e.isFetch) = true
  ∧ (Server.processRequest ⟨Except.ok [[]], Except.ok "g", Except.ok ()⟩
        ⟨none, "summarize", some "P1"⟩).2.head? = some (Effect.fetchPage "P1") :=
  ⟨((c5_content_short_circuit ⟨Except.ok [], Except.ok "g", Except.ok ()⟩
      ⟨some "x", "summarize", some "P1"⟩).1 "x" rfl (by decide)).1,
   (c5_content_short_circuit ⟨Except.ok [[]], Except.ok "g", Except.ok ()⟩
      ⟨none, "summarize", some "P1"⟩).2 "P1" rfl rfl⟩

/-- C6: when no usable `content` is given and extraction from the page
yields blank text, the `src/server.js` pipeline answers 400 with the
no-readable-content error, and its only external call is the extractor
invocation — the generator is never called. -/
theorem c6_empty_content_rejected (env : Server.Env) (req : Req) (pid : String)
    (pages : List (List Block))
    (hpid : req.notionPageId = some pid) (hb : isBlank req.content = true)
    (hstore : env.store = .ok pages)
    (hempty : jsTrim (Server.extractContent (fetchAllBlocks pages)) = "") :
    Server.processRequest env req
      = (⟨400, some "No readable content found on the specified Notion page to process.",
            none, none⟩,
         [Effect.fetchPage pid]) := by
  simp [Server.processRequest, hpid, hb, Server.fetchNotionPageContent, hstore, hempty]

/-- Witness for C6: a request without content against a page whose only
paginated response is an empty block list is rejected with 400 and the
trace holds exactly the extractor call. -/
theorem c6_empty_content_rejected_witness :
    Server.processRequest ⟨Except.ok [[]], Except.ok "g", Except.ok ()⟩
        ⟨none, "summarize", some "P1"⟩
      = (⟨400, some "No readable content found on the specified Notion page to process.",
            none, none⟩,
         [Effect.fetchPage "P1"]) :=
  c6_empty_content_rejected ⟨Except.ok [[]], Except.ok "g", Except.ok ()⟩
    ⟨none, "summarize", some "P1"⟩ "P1" [[]] rfl rfl rfl (by decide)

/-- C7: if the generator call fails, the `src/server.js` pipeline never
issues a document-store append, and whenever the generator was actually
invoked the request terminates with the 500 response wrapping the
generator's cause message behind `Failed to process request: `. -/
theorem c7_generation_failure_no_append (env : Server.Env) (req : Req) (m : String)
    (hg : env.gen = .error m) :
    ((Server.processRequest env req).2.all fun e => !e.isAppend) = true
  ∧ ∀ p, Effect.generate p ∈ (Server.processRequest env req).2 →
      (Server.processRequest env req).1
        = ⟨500, some ("Failed to process request: " ++ m), none, none⟩ := by
  rcases Server.processRequest_cases env req with ⟨_, heq⟩ | ⟨pid, hpid, hcase⟩
  · rw [heq]
    exact ⟨by simp, by intro p hp; simp at hp⟩
  · rcases hcase with ⟨m', _, _, heq⟩ | ⟨pages, _, _, _, heq⟩ | ⟨pages, _, _, _, heq⟩ | ⟨_, heq⟩
    · rw [heq]
      exact ⟨by simp [Effect.isAppend], by intro p hp; simp at hp⟩
    · rw [heq]
      exact ⟨by simp [Effect.isAppend], by intro p hp; simp at hp⟩
    · rw [heq]
      rcases Server.processAction_gen_error env pid req.action
          (Server.extractContent (fetchAllBlocks pages)) [Effect.fetchPage pid] m hg with
        h4 | ⟨p, hp, h5⟩
      · rw [h4]
        exact ⟨by simp [Effect.isAppend], by intro q hq; simp at hq⟩
      · rw [h5]
        exact ⟨by simp [Effect.isAppend], by intro q hq; simp⟩
    · rw [heq]
      rcases Server.processAction_gen_error env pid req.action
          (req.content.getD "") [] m hg with h4 | ⟨p, hp, h5⟩
      · rw [h4]
        exact ⟨by simp [Effect.isAppend], by intro q hq; simp at hq⟩
      · rw [h5]
        exact ⟨by simp [Effect.isAppend], by intro q hq; simp⟩

/-- Witness for C7: with a failing generator, a full run appends nothing
and returns the wrapped 500. -/
theorem c7_generation_failure_no_append_witness :
    ((Server.processRequest ⟨Except.ok [], Except.error "gen down", Except.ok ()⟩
        ⟨some "x", "summarize", some "P1"⟩).2.all fun e => !e.isAppend) = true
  ∧ (Server.processRequest ⟨Except.ok [], Except.error "gen down", Except.ok ()⟩
        ⟨some "x", "summarize", some "P1"⟩).1
      = ⟨500, some ("Failed to process request: " ++ "gen down"), none, none⟩ :=
  ⟨(c7_generation_failure_no_append ⟨Except.ok [], Except.error "gen down", Except.ok ()⟩
      ⟨some "x", "summarize", some "P1"⟩ "gen down" rfl).1,
   (c7_generation_failure_no_append ⟨Except.ok [], Except.error "gen down", Except.ok ()⟩
      ⟨some "x", "summarize", some "P1"⟩ "gen down" rfl).2
     "Summarize the following content concisely:\n\nx" (by decide)⟩

/-- C8 counterexample: when generation succeeds and the append fails,
the error response does not contain the previously generated text.  With
generated text "Summary." and store failure "boom", `src/server.js`
answers only the wrapped error — "Summary." occurs nowhere in it and the
`geminiResponse` field is absent — and `src/unnamed/part_000` answers
the generic catch-all with no `output` field. -/
theorem c8_append_failure_cex :
    (Server.processRequest ⟨Except.ok [], Except.ok "Summary.", Except.error "boom"⟩
        ⟨some "x", "summarize", some "P1"⟩).1
      = ⟨500, some "Failed to process request: Failed to append content to Notion: boom",
          none, none⟩
  ∧ (Server.processRequest ⟨Except.ok [], Except.ok "Summary.", Except.error "boom"⟩
        ⟨some "x", "summarize", some "P1"⟩).1.geminiResponse = none
  ∧ containsStr "Failed to process request: Failed to append content to Notion: boom"
      "Summary." = false
  ∧ (Part000.process ⟨fun _ => Except.ok "", Except.ok "Summary.", Except.error "boom"⟩
        ⟨some "x", "summarize", some "P1"⟩).1
      = ⟨500, none, none, some Part000.catchAllMessage, some "boom", none⟩ :=
  ⟨by decide, by decide, by decide, by decide⟩

/-- C8 amended: when generation succeeds and the append fails, the
request is terminal with a 500 whose message wraps the append cause
behind `Failed to append content to Notion: ` (distinguishing it from a
generation failure only through that message prefix), the trace shows
the generate followed by the attempted append — but the response does
NOT carry the previously generated text: its `geminiResponse` field is
`none`. -/
theorem c8_append_failure_amended (env : Server.Env) (req : Req) (pid s p g m : String)
    (hpid : req.notionPageId = some pid) (hs : req.content = some s) (hne : jsTrim s ≠ "")
    (hp : Server.buildPrompt req.action s = some p)
    (hg : env.gen = .ok g) (ha : env.appendRes = .error m) :
    Server.processRequest env req
      = (⟨500, some ("Failed to process request: "
            ++ ("Failed to append content to Notion: " ++ m)), none, none⟩,
         [Effect.generate p, Effect.append pid (Server.appendChildren g)])
  ∧ (Server.processRequest env req).1.geminiResponse = none := by
  have hb : isBlank (some s) = false := by simp [isBlank, hne]
  have heq : Server.processRequest env req
      = Server.processAction env pid req.action s [] := by
    simp [Server.processRequest, hpid, hs, hb]
  rw [heq]
  constructor
  · simp [Server.processAction, hp, hg, ha]
  · simp [Server.processAction, hp, hg, ha]

/-- Witness for C8 amended: concrete run with generated text "Summary."
and append failure "boom". -/
theorem c8_append_failure_amended_witness :
    Server.processRequest ⟨Except.ok [], Except.ok "Summary.", Except.error "boom"⟩
        ⟨some "x", "summarize", some "P1"⟩
      = (⟨500, some ("Failed to process request: "
            ++ ("Failed to append content to Notion: " ++ "boom")), none, none⟩,
         [Effect.generate "Summarize the following content concisely:\n\nx",
          Effect.append "P1" (Server.appendChildren "Summary.")]) :=
  (c8_append_failure_amended ⟨Except.ok [], Except.ok "Summary.", Except.error "boom"⟩
    ⟨some "x", "summarize", some "P1"⟩ "P1" "x"
    "Summarize the following content concisely:\n\nx" "Summary." "boom"
    rfl rfl (by decide) rfl rfl rfl).1

/-- C3: in the `src/unnamed/part_000` variant the supported action
`rephrase` does not yield a prompt containing the input text: its switch
arm interpolates the undefined identifier `contentForLLLLM`, so the
request dies with a `ReferenceError` — answered as the catch-all 500
with the error's message in `details` — with no generator call at all.
This contradicts the claim (and the spec's intent that every supported
action interpolates the truncated input); every other arm uses the
correctly named `contentForLLM`. -/
theorem c3_rephrase_reference_error :
    Part000.buildPrompt "rephrase" "hello world" (jsTake "hello world" 15000)
      = Part000.PromptResult.referenceError
  ∧ Part000.process ⟨fun _ => Except.ok "", Except.ok "g", Except.ok ()⟩
        ⟨some "hello world", "rephrase", some "P1"⟩
      = (⟨500, none, none, some Part000.catchAllMessage,
            some Part000.referenceErrorMessage, none⟩, []) :=
  ⟨rfl, by decide⟩

/-- C4 counterexample: in the `src/unnamed/part_000` variant a request
whose action "bogus" is outside the supported set is NOT rejected: the
switch's default arm builds a generic prompt, the generator is invoked
with it, and the request succeeds with 200. -/
theorem c4_unknown_action_cex :
    (Part000.process ⟨fun _ => Except.error "no net", Except.ok "gen", Except.ok ()⟩
        ⟨some "x", "bogus", none⟩).1.status = 200
  ∧ (Part000.process ⟨fun _ => Except.error "no net", Except.ok "gen", Except.ok ()⟩
        ⟨some "x", "bogus", none⟩).2
      = [Effect.generate
          ("Analyze the following text and provide a general overview. Format using Notion-compatible markdown: x")] :=
  ⟨by decide, by decide⟩

/-- C4 amended: in the `src/server.js` variant an action outside the
supported set is rejected with 400 `Invalid AI action specified.` and no
external call is made at all; in the `src/unnamed/part_000` variant an
action outside its recognised set instead falls through to the default
arm — the generator IS invoked, first in the trace, with the generic
"Analyze the following text" prompt over the truncated content, and the
request is not answered with 400. -/
theorem c4_unknown_action_amended :
    (∀ (env : Server.Env) (req : Req) (pid s : String),
        req.notionPageId = some pid → req.content = some s → jsTrim s ≠ "" →
        req.action ∉ Server.supportedActions →
        Server.processRequest env req
          = (⟨400, some "Invalid AI action specified.", none, none⟩, []))
  ∧ (∀ (env : Part000.Env) (req : Req) (s : String),
        req.content = some s → Part000.startsWithUrl s = false → jsTrim s ≠ "" →
        req.action ∉ Part000.supportedActions →
        (Part000.process env req).2.head?
            = some (Effect.generate
                ("Analyze the following text and provide a general overview. Format using Notion-compatible markdown: "
                  ++ jsTake s 15000))
          ∧ (Part000.process env req).1.status ≠ 400) := by
  constructor
  · intro env req pid s hpid hs hne hact
    have hb : isBlank (some s) = false := by simp [isBlank, hne]
    have hp := Server.buildPrompt_eq_none req.action s hact
    simp [Server.processRequest, hpid, hs, hb, Server.processAction, hp]
  · intro env req s hs hurl hne hact
    have hb : isBlank (some s) = false := by simp [isBlank, hne]
    have hp := Part000.buildPrompt_default req.action s (jsTake s 15000) hact
    have heq : Part000.process env req = Part000.afterResolve env req (some s) [] := by
      simp [Part000.process, hs, hurl]
    have hq : req.content.getD "" = s := by simp [hs]
    rw [heq]
    rcases hg : env.gen with m | g
    · constructor <;> simp [Part000.afterResolve, hb, hq, hp, hg]
    · rcases hpid : req.notionPageId with _ | pid
      · constructor <;> simp [Part000.afterResolve, hb, hq, hp, hg, hpid]
      · rcases ha : env.appendRes with m | u
        · constructor <;> simp [Part000.afterResolve, hb, hq, hp, hg, hpid, ha]
        · constructor <;> simp [Part000.afterResolve, hb, hq, hp, hg, hpid, ha]

/-- Witness for C4 amended: the unsupported action "translate" is
rejected by the `src/server.js` handler with 400 and an empty trace, and
falls through to the generic generator call in `src/unnamed/part_000`. -/
theorem c4_unknown_action_amended_witness :
    Server.processRequest ⟨Except.ok [], Except.ok "g", Except.ok ()⟩
        ⟨some "x", "translate", some "P1"⟩
      = (⟨400, some "Invalid AI action specified.", none, none⟩, [])
  ∧ (Part000.process ⟨fun _ => Except.ok "", Except.ok "g", Except.ok ()⟩
        ⟨some "x", "translate", none⟩).2.head?
      = some (Effect.generate
          ("Analyze the following text and provide a general overview. Format using Notion-compatible markdown: "
            ++ jsTake "x" 15000)) :=
  ⟨c4_unknown_action_amended.1 ⟨Except.ok [], Except.ok "g", Except.ok ()⟩
      ⟨some "x", "translate", some "P1"⟩ "P1" "x" rfl rfl (by decide) (by decide),
   (c4_unknown_action_amended.2 ⟨fun _ => Except.ok "", Except.ok "g", Except.ok ()⟩
      ⟨some "x", "translate", none⟩ "x" rfl (by decide) (by decide) (by decide)).1⟩

theorem Part000.afterResolve_generate (env : Part000.Env) (req : Req) (sc : Option String)
    (fx : List Effect) (p : String)
    (hfx : ∀ q, Effect.generate q ∈ fx → False)
    (hp : Effect.generate p ∈ (Part000.afterResolve env req sc fx).2) :
    ∃ s, sc = some s ∧
      Part000.buildPrompt req.action (req.content.getD "") (jsTake s 15000)
        = Part000.PromptResult.ok p := by
  rcases sc with _ | s
  · simp [Part000.afterResolve, isBlank] at hp
    exact absurd hp (hfx p)
  · by_cases hb : isBlank (some s) = true
    · simp [Part000.afterResolve, hb] at hp
      exact absurd hp (hfx p)
    · have hb' : isBlank (some s) = false := by simpa using hb
      refine ⟨s, rfl, ?_⟩
      rcases hbp : Part000.buildPrompt req.action (req.content.getD "") (jsTake s 15000) with
        p' | _
      · rcases hg : env.gen with m | g
        · simp [Part000.afterResolve, hb', hbp, hg] at hp
          rcases hp with hp | hp
          · exact absurd hp (hfx p)
          · rw [hp]
        · rcases hpid : req.notionPageId with _ | pid
          · simp [Part000.afterResolve, hb', hbp, hg, hpid] at hp
            rcases hp with hp | hp
            · exact absurd hp (hfx p)
            · rw [hp]
          · rcases ha : env.appendRes with m | u
            · simp [Part000.afterResolve, hb', hbp, hg, hpid, ha] at hp
              rcases hp with hp | hp
              · exact absurd hp (hfx p)
              · rw [hp]
            · simp [Part000.afterResolve, hb', hbp, hg, hpid, ha] at hp
              rcases hp with hp | hp
              · exact absurd hp (hfx p)
              · rw [hp]
      · simp [Part000.afterResolve, hb', hbp] at hp
        exact absurd hp (hfx p)

/-- C10: in the `src/unnamed/part_000` variant, when the `content` field
starts with `http://` or `https://` the handler fetches it through the
allorigins proxy (`https://api.allorigins.win/raw?url=<encoded>`): if
that fetch fails the request is answered 400 with the could-not-fetch
error and the proxied fetch is the only external call — neither the
generator nor the document store is reached; if it succeeds, every
prompt handed to the generator is built over the truncated fetched
response body (the URL string itself serves only as the `ask_question`
question slot), not over the URL field as content. -/
theorem c10_url_content_fetch (env : Part000.Env) (req : Req) (s : String)
    (hs : req.content = some s) (hurl : Part000.startsWithUrl s = true) :
    (∀ m, env.urlFetch (Part000.proxyUrl s) = .error m →
        Part000.process env req
          = (⟨400, none, none, some ("Could not fetch content from URL: " ++ s ++ "."),
                some m, none⟩,
             [Effect.urlFetch (Part000.proxyUrl s)]))
  ∧ ∀ body p, env.urlFetch (Part000.proxyUrl s) = .ok body →
      Effect.generate p ∈ (Part000.process env req).2 →
      Part000.buildPrompt req.action s (jsTake body 15000)
        = Part000.PromptResult.ok p := by
  constructor
  · intro m hm
    simp [Part000.process, hs, hurl, hm]
  · intro body p hbody hp
    have heq : Part000.process env req
        = Part000.afterResolve env req (some body)
            [Effect.urlFetch (Part000.proxyUrl s)] := by
      simp [Part000.process, hs, hurl, hbody]
    rw [heq] at hp
    obtain ⟨s', hs', hbp⟩ :=
      Part000.afterResolve_generate env req (some body)
        [Effect.urlFetch (Part000.proxyUrl s)] p (by intro q hq; simp at hq) hp
    have hb : s' = body := by
      injection hs' with h
      exact h.symm
    subst hb
    simpa [hs] using hbp

/-- Witness for C10: a request whose content is the URL "http://x" and
whose proxied fetch fails with an HTTP error is answered 400 with only
the proxied fetch (note the percent-encoded URL) in the trace. -/
theorem c10_url_content_fetch_witness :
    Part000.process
        ⟨fun _ => Except.error "HTTP error! status: 500", Except.ok "g", Except.ok ()⟩
        ⟨some "http://x", "summarize", some "P1"⟩
      = (⟨400, none, none, some "Could not fetch content from URL: http://x.",
            some "HTTP error! status: 500", none⟩,
         [Effect.urlFetch "https://api.allorigins.win/raw?url=http%3A%2F%2Fx"]) :=
  (c10_url_content_fetch
    ⟨fun _ => Except.error "HTTP error! status: 500", Except.ok "g", Except.ok ()⟩
    ⟨some "http://x", "summarize", some "P1"⟩ "http://x" rfl (by decide)).1
    "HTTP error! status: 500" rfl
